import Mathlib

/-!
Verification development for talisker's request-id propagation core and the
standard-endpoints WSGI middleware.

The request-id core (`talisker/request_id.py`, `talisker/request_context.py`)
is exercised by `src/tests/test_request_id.py`; the dispatch middleware lives
in `src/talisker/endpoints.py`.  Identifiers and header values are opaque
byte/string tokens; we model them as `String` with equality standing for
byte-for-byte equality.
-/

namespace Talisker

/-- A WSGI environ / header map: string keys to string values, first match
wins (models a Python dict: insertion at the front models assignment). -/
abbrev Environ := List (String × String)

/-- First-match association lookup, models Python `d[k]` / `d.get(k)`. -/
def lookupKV : Environ → String → Option String
  | [], _ => none
  | (k, v) :: rest, key => if k = key then some v else lookupKV rest key

/-- Dict assignment `d[k] = v`: prepend, so `lookupKV` sees the new value. -/
def setKV (environ : Environ) (key val : String) : Environ :=
  (key, val) :: environ

/-- Modelled from the spec: a Request-Scoped Context scope is a mapping from
string keys to values (`talisker/request_context.py` is missing from src/;
only its tests appear).  A scope holds at least `{"request_id": id}`. -/
abbrev Ctx := List (String × String)

/-- Modelled from the spec: execution-local storage — each execution unit
(thread/task, indexed by `Nat`) owns its own stack of open scopes, so
concurrent requests never observe each other's state. -/
def Store := Nat → List Ctx

/-- The store with no scope open on any execution unit. -/
def emptyStore : Store := fun _ => []

/-- Modelled from the spec: `enter(initial)` opens a new scope on the current
execution unit, seeded with `initial`'s entries. -/
def enterScope (s : Store) (u : Nat) (initial : Ctx) : Store :=
  fun u2 => if u2 = u then initial :: s u2 else s u2

/-- Modelled from the spec: `exit` closes the most recently opened scope for
the current execution unit. -/
def exitScope (s : Store) (u : Nat) : Store :=
  fun u2 => if u2 = u then (s u2).tail else s u2

/-- Modelled from the spec: ambient lookup — the innermost open scope's value
for `key`, or `none` ("absent") when no scope is open or the key is unset.
A total function: it never raises. -/
def ctxGet (s : Store) (u : Nat) (key : String) : Option String :=
  match s u with
  | [] => none
  | scope :: _ => lookupKV scope key

/-- Modelled from the spec: `request_id.get()` — ambient lookup of the
current request identifier. -/
def requestIdGet (s : Store) (u : Nat) : Option String :=
  ctxGet s u "request_id"

/-- Modelled from the spec: `request_context.extra[key]` — the context's own
key/value entries, read through the same execution-local scope. -/
def requestContextExtra (s : Store) (u : Nat) (key : String) : Option String :=
  ctxGet s u key

/-! ### Identifier middleware, modelled from the spec
(`talisker/request_id.py` is missing from src/; only its tests appear). -/

/-- The primary inbound header name (default and only primary). -/
def HEADER : String := "X-Request-Id"

/-- The fixed environ key the identifier is attached under. -/
def WSGI_KEY : String := "REQUEST_ID"

/-- One character of `name.upper().replace('-', '_')` (header names are
ASCII). -/
def wsgiChar (c : Char) : Char :=
  if c = '-' then '_'
  else if 'a' ≤ c && c ≤ 'z' then Char.ofNat (c.toNat - 32)
  else c

/-- WSGI name of an HTTP header: `HTTP_` + upper-cased, `-` → `_`. -/
def wsgiName (name : String) : String :=
  "HTTP_" ++ String.mk (name.data.map wsgiChar)

/-- Modelled from the spec: middleware configuration — the only configuration
is an optional alternate header name (single string, default none). -/
structure RequestIdMiddleware where
  altHeader : Option String := none

/-- Read one header from the environ; an empty-string value is treated as
absent. -/
def readHeader (environ : Environ) (name : String) : Option String :=
  match lookupKV environ (wsgiName name) with
  | some v => if v = "" then none else some v
  | none => none

/-- Modelled from the spec: Resolve — primary header first, then the
configured alternate; first non-empty value wins. -/
def resolveId (m : RequestIdMiddleware) (environ : Environ) : Option String :=
  match readHeader environ HEADER with
  | some v => some v
  | none =>
    match m.altHeader with
    | some alt => readHeader environ alt
    | none => none

/-! #### Generate: UUID-v4-equivalent token in canonical text form.
`r` stands for the raw 128 random bits; as in `uuid.uuid4()`, the version
nibble is forced to `4` and the variant nibble to `10xx`, leaving 122
effective random bits (`r < 2 ^ 122` after masking). -/

/-- Fixed-width base-16 digits of `n`, most significant first. -/
def hexDigits : Nat → Nat → List (Fin 16)
  | 0, _ => []
  | w + 1, n => hexDigits w (n / 16) ++ [⟨n % 16, by omega⟩]

/-- Value of a base-16 digit list (most significant first). -/
def hexVal (ds : List (Fin 16)) : Nat :=
  ds.foldl (fun acc d => acc * 16 + d.val) 0

/-- Lower-case hex character of one digit. -/
def hexChar (d : Fin 16) : Char :=
  if d.val < 10 then Char.ofNat (48 + d.val) else Char.ofNat (87 + d.val)

/-- The 32 hex digits of a version-4 UUID built from random bits `r`:
30 free digits, the version digit `4` at index 12 and the variant digit
`8 + ((r / 2 ^ 120) % 4)` (binary `10xx`) at index 16. -/
def uuidNibbles (r : Nat) : List (Fin 16) :=
  let ds := hexDigits 30 (r % 2 ^ 120)
  ds.take 12 ++ [(4 : Fin 16)] ++ (ds.drop 12).take 3
    ++ [⟨8 + (r / 2 ^ 120) % 4, by omega⟩] ++ ds.drop 15

/-- Canonical 8-4-4-4-12 text form of 32 hex digits. -/
def uuidText (ns : List (Fin 16)) : String :=
  let cs := ns.map hexChar
  String.mk (cs.take 8 ++ '-' :: ((cs.drop 8).take 4 ++ '-' ::
    ((cs.drop 12).take 4 ++ '-' :: ((cs.drop 16).take 4 ++ '-' :: cs.drop 20))))

/-- Modelled from the spec: `request_id.generate()` — a fresh UUID-v4
equivalent token, canonical text form, from random bits `r`. -/
def generate (r : Nat) : String :=
  uuidText (uuidNibbles r)

/-- Strip the dashes from a canonical UUID text's characters (recovers the
32 hex digits). -/
def stripDashes (l : List Char) : List Char :=
  l.filter fun c => c != '-'

/-! #### The middleware invocation itself. -/

/-- The identifier the middleware installs: the resolved header value, or a
generated one (from random bits `r`) when Resolve found nothing. -/
def installedId (m : RequestIdMiddleware) (environ : Environ) (r : Nat) : String :=
  (resolveId m environ).getD (generate r)

/-- The environ as seen by the wrapped handler: the original environ with the
identifier attached under `REQUEST_ID` (attached before the handler runs). -/
def middlewareEnviron (m : RequestIdMiddleware) (environ : Environ) (r : Nat) :
    Environ :=
  setKV environ WSGI_KEY (installedId m environ r)

/-- The store as seen by the wrapped handler: a fresh scope seeded with
`{"request_id": identifier}` opened on the handling execution unit. -/
def middlewareStore (m : RequestIdMiddleware) (environ : Environ) (r : Nat)
    (u : Nat) (s : Store) : Store :=
  enterScope s u [("request_id", installedId m environ r)]

/-- Modelled from the spec: one `RequestIdMiddleware.__call__` invocation on
execution unit `u`.  Resolve/Generate, attach to environ, enter the scope,
invoke the wrapped handler (which may fail with `Except.error`), and exit the
scope before returning.  Returns the handler's outcome unchanged together
with the post-teardown store. -/
def middlewareCall {E A : Type} (m : RequestIdMiddleware)
    (app : Environ → Store → Nat → Except E A) (environ : Environ) (r : Nat)
    (u : Nat) (s : Store) : Except E A × Store :=
  let environ2 := middlewareEnviron m environ r
  let s1 := middlewareStore m environ r u s
  (app environ2 s1 u, exitScope s1 u)

/-- Modelled from the spec: the `request_id.decorator(id_func)` form — wraps
an arbitrary callable; calling it enters a scope seeded with the supplied
generator's value, invokes the body, and exits the scope. -/
def decorator {A : Type} (gen : Unit → String) (f : Store → Nat → A)
    (u : Nat) (s : Store) : A × Store :=
  let s1 := enterScope s u [("request_id", gen ())]
  (f s1 u, exitScope s1 u)

/-! #### Interleaved scope operations of another execution unit (for the
concurrency claim): any sequence of enters/exits performed by a concurrent
request on its own execution unit. -/

/-- One scope operation: enter with a seed, or exit. -/
inductive StoreOp where
  | enter (initial : Ctx)
  | leave
  deriving Repr

/-- Apply one scope operation on execution unit `u`. -/
def applyOp (op : StoreOp) (u : Nat) (s : Store) : Store :=
  match op with
  | .enter c => enterScope s u c
  | .leave => exitScope s u

/-- Apply a sequence of scope operations on execution unit `u`, in order. -/
def applyOps (ops : List StoreOp) (u : Nat) (s : Store) : Store :=
  ops.foldl (fun s2 op => applyOp op u s2) s

end Talisker

namespace Endpoints

/-! ### `src/talisker/endpoints.py`: `StandardEndpointMiddleware`.
`σ` is the opaque type of the `start_response` callable, `ρ` the opaque type
of a WSGI call's result.  The werkzeug `Response` objects produced inside the
intercepted branch, and the endpoint methods themselves, are external
collaborators: they are modelled as opaque fields of the middleware, so the
dispatch structure of `__call__` is what is embedded. -/

open Talisker (Environ lookupKV setKV)

/-- The class-level `urlmap` of `StandardEndpointMiddleware`: path suffix to
method name (`none` for the entries published only with prometheus_client). -/
def urlmapBase : List (String × Option String) :=
  [("/", some "index"), ("/index", some "index"), ("/check", some "check"),
   ("/info", some "info"), ("/metrics", none), ("/ping", some "ping"),
   ("/error", some "error"), ("/test/sentry", some "error"),
   ("/test/statsd", some "test_statsd"), ("/test/prometheus", none)]

/-- First-match lookup in the urlmap (models `self.urlmap[method]`). -/
def urlmapFind : List (String × Option String) → String → Option (Option String)
  | [], _ => none
  | (k, v) :: rest, key => if k = key then some v else urlmapFind rest key

/-- The default `namespace` constructor argument. -/
def defaultNamespace : String := "_status"

/-- `StandardEndpointMiddleware`: wrapped app, namespace, whether
prometheus_client is installed, and the opaque outcomes of the intercepted
branch (redirect, 404, `TypeError` from `getattr(self, None)`, and the
endpoint methods' responses applied to `(environ, start_response)`). -/
structure StandardEndpointMiddleware (σ ρ : Type) where
  app : Environ → σ → ρ
  ns : String := defaultNamespace
  prometheusInstalled : Bool
  redirect : String → Environ → σ → ρ
  notFound : Environ → σ → ρ
  typeError : Environ → σ → ρ
  dispatch : String → Environ → σ → ρ

/-- `self.prefix = '/' + namespace`. -/
def statusRoot {σ ρ : Type} (m : StandardEndpointMiddleware σ ρ) : String :=
  "/" ++ m.ns

/-- `self.urlmap` after `__init__`: `/metrics` and `/test/prometheus` are
published only if prometheus_client is installed. -/
def urlmap {σ ρ : Type} (m : StandardEndpointMiddleware σ ρ) :
    List (String × Option String) :=
  if m.prometheusInstalled then
    [("/", some "index"), ("/index", some "index"), ("/check", some "check"),
     ("/info", some "info"), ("/metrics", some "metrics"),
     ("/ping", some "ping"), ("/error", some "error"),
     ("/test/sentry", some "error"), ("/test/statsd", some "test_statsd"),
     ("/test/prometheus", some "test_prometheus")]
  else urlmapBase

/-- `werkzeug.wrappers.Request(environ)`'s constructor side effect: with the
default `populate_request=True`, werkzeug executes
`self.environ['werkzeug.request'] = self` before anything else runs, so the
wrapped app later receives the mutated environ.  The stored value is the
`Request` object itself; `Environ` carries string values, so it is recorded
as an opaque marker. -/
def requestEnviron (environ : Environ) : Environ :=
  setKV environ "werkzeug.request" "<Request>"

/-- Python `s.lstrip('/')` on characters: drop every leading `'/'`. -/
def lstripSlash : List Char → List Char
  | '/' :: rest => lstripSlash rest
  | l => l

/-- `werkzeug.wrappers.Request(environ).path`: the decoded `PATH_INFO`,
normalized by werkzeug as `'/' + raw_path.lstrip('/')` (the latin-1/utf-8
decoding dance is the identity on our opaque string tokens). -/
def requestPath (environ : Environ) : String :=
  String.mk ('/' :: lstripSlash ((lookupKV environ "PATH_INFO").getD "").data)

/-- `p` is a leading run of `s` (Python `str.startswith`, on char lists). -/
def charsLead : List Char → List Char → Bool
  | [], _ => true
  | _ :: _, [] => false
  | p :: ps, c :: cs => p = c && charsLead ps cs

/-- Python `s.startswith(p)`. -/
def strStartsWith (s p : String) : Bool :=
  charsLead p.data s.data

/-- Python `s[n:]` (drop the first `n` characters). -/
def strDrop (s : String) (n : Nat) : String :=
  String.mk (s.data.drop n)

/-- Python `len(s)` (character count). -/
def strLen (s : String) : Nat :=
  s.data.length

/-- `StandardEndpointMiddleware.__call__`: first `Request(environ)` is
constructed, mutating the environ (the `werkzeug.request` entry); then paths
under `self.prefix` are intercepted (redirect without trailing slash, urlmap
dispatch, 404 on missing entry or method) and every other path goes to the
wrapped app with that same — now mutated — environ and the unchanged
`start_response`. -/
def call {σ ρ : Type} (m : StandardEndpointMiddleware σ ρ) (environ : Environ)
    (sr : σ) : ρ :=
  let environ2 := requestEnviron environ
  let path := requestPath environ2
  if strStartsWith path (statusRoot m) then
    let method := strDrop path (strLen (statusRoot m))
    if method = "" then m.redirect (statusRoot m ++ "/") environ2 sr
    else
      match urlmapFind (urlmap m) method with
      | some (some funcname) => m.dispatch funcname environ2 sr
      | some none => m.typeError environ2 sr
      | none => m.notFound environ2 sr
  else m.app environ2 sr

end Endpoints

/-! ## Theorems. -/

namespace Talisker

theorem lookupKV_setKV (environ : Environ) (key val : String) :
    lookupKV (setKV environ key val) key = some val := by
  simp [setKV, lookupKV]

theorem lookupKV_setKV_ne (environ : Environ) (key key2 val : String)
    (h : key2 ≠ key) :
    lookupKV (setKV environ key val) key2 = lookupKV environ key2 := by
  simp [setKV, lookupKV, Ne.symm h]

theorem ctxGet_enterScope (s : Store) (u : Nat) (c : Ctx) (key : String) :
    ctxGet (enterScope s u c) u key = lookupKV c key := by
  simp [ctxGet, enterScope]

theorem exitScope_enterScope (s : Store) (u : Nat) (c : Ctx) :
    exitScope (enterScope s u c) u = s := by
  funext u2
  by_cases h : u2 = u <;> simp [exitScope, enterScope, h]

theorem resolveId_primary (m : RequestIdMiddleware) (environ : Environ)
    (v : String) (h : lookupKV environ (wsgiName HEADER) = some v)
    (hv : v ≠ "") : resolveId m environ = some v := by
  simp [resolveId, readHeader, h, hv]

theorem resolveId_none (m : RequestIdMiddleware) (environ : Environ)
    (h1 : lookupKV environ (wsgiName HEADER) = none)
    (h2 : ∀ alt, m.altHeader = some alt →
      lookupKV environ (wsgiName alt) = none) :
    resolveId m environ = none := by
  cases halt : m.altHeader with
  | none => simp [resolveId, readHeader, h1, halt]
  | some alt => simp [resolveId, readHeader, h1, halt, h2 alt halt]

/-- C1: for every inbound request whose primary header `X-Request-Id`
carries a non-empty value, the identifier installed by the middleware —
visible via ambient lookup `request_id.get()`, via the environ's
`REQUEST_ID` entry, and via the context's `request_id` key — equals that
header value exactly. -/
theorem C1_primary_header_id_installed (m : RequestIdMiddleware)
    (environ : Environ) (r u : Nat) (s : Store) (v : String)
    (h : lookupKV environ (wsgiName HEADER) = some v) (hv : v ≠ "") :
    installedId m environ r = v ∧
    requestIdGet (middlewareStore m environ r u s) u = some v ∧
    lookupKV (middlewareEnviron m environ r) WSGI_KEY = some v ∧
    requestContextExtra (middlewareStore m environ r u s) u "request_id"
      = some v := by
  have hid : installedId m environ r = v := by
    simp [installedId, resolveId_primary m environ v h hv]
  refine ⟨hid, ?_, ?_, ?_⟩
  · simp [requestIdGet, middlewareStore, ctxGet_enterScope, lookupKV, hid]
  · simp [middlewareEnviron, lookupKV_setKV, hid]
  · simp [requestContextExtra, middlewareStore, ctxGet_enterScope, lookupKV,
      hid]

/-- Witness for C1: the request of `test_middleware_with_id`, with header
value `"r-1"`. -/
theorem C1_witness :
    installedId {} [("HTTP_X_REQUEST_ID", "r-1")] 0 = "r-1" ∧
    requestIdGet
      (middlewareStore {} [("HTTP_X_REQUEST_ID", "r-1")] 0 0 emptyStore) 0
      = some "r-1" ∧
    lookupKV (middlewareEnviron {} [("HTTP_X_REQUEST_ID", "r-1")] 0) WSGI_KEY
      = some "r-1" ∧
    requestContextExtra
      (middlewareStore {} [("HTTP_X_REQUEST_ID", "r-1")] 0 0 emptyStore) 0
      "request_id" = some "r-1" :=
  C1_primary_header_id_installed {} [("HTTP_X_REQUEST_ID", "r-1")] 0 0
    emptyStore "r-1" (by decide) (by decide)

/-- C2: for every request, the wrapped handler is invoked exactly on the
environ and store built by the middleware, and on them the ambient lookup
`request_id.get()`, the environ's `REQUEST_ID` entry, and the context's
`request_id` entry all return the same single identifier. -/
theorem C2_three_views_agree (m : RequestIdMiddleware) (environ : Environ)
    (r u : Nat) (s : Store) :
    requestIdGet (middlewareStore m environ r u s) u
      = some (installedId m environ r) ∧
    lookupKV (middlewareEnviron m environ r) WSGI_KEY
      = some (installedId m environ r) ∧
    requestContextExtra (middlewareStore m environ r u s) u "request_id"
      = some (installedId m environ r) ∧
    ∀ (E A : Type) (app : Environ → Store → Nat → Except E A),
      (middlewareCall m app environ r u s).1
        = app (middlewareEnviron m environ r) (middlewareStore m environ r u s)
            u := by
  refine ⟨?_, ?_, ?_, fun E A app => rfl⟩
  · simp [requestIdGet, middlewareStore, ctxGet_enterScope, lookupKV]
  · simp [middlewareEnviron, lookupKV_setKV]
  · simp [requestContextExtra, middlewareStore, ctxGet_enterScope, lookupKV]

/-- C4: when the middleware is configured with an alternate header name,
resolution reads the primary header first, then the alternate, and the
first non-empty value wins: with the primary absent, a non-empty alternate
value becomes the installed identifier; a non-empty primary value always
wins. -/
theorem C4_alt_header_resolution (m : RequestIdMiddleware) (environ : Environ)
    (r : Nat) (alt : String) (hm : m.altHeader = some alt) :
    (lookupKV environ (wsgiName HEADER) = none →
      ∀ v, lookupKV environ (wsgiName alt) = some v → v ≠ "" →
        installedId m environ r = v) ∧
    (∀ w, lookupKV environ (wsgiName HEADER) = some w → w ≠ "" →
      installedId m environ r = w) := by
  constructor
  · intro hp v ha hv
    simp [installedId, resolveId, readHeader, hp, hm, ha, hv]
  · intro w hw hw'
    simp [installedId, resolveId_primary m environ w hw hw']

/-- Witness for C4: the request of `test_middleware_alt_header`, alternate
header `X-Alternate` carrying `"alt-1"` and no primary header. -/
theorem C4_witness :
    installedId ⟨some "X-Alternate"⟩ [("HTTP_X_ALTERNATE", "alt-1")] 0
      = "alt-1" :=
  (C4_alt_header_resolution ⟨some "X-Alternate"⟩ [("HTTP_X_ALTERNATE", "alt-1")]
      0 "X-Alternate" rfl).1 (by decide) "alt-1" (by decide) (by decide)

/-- C5: when the wrapped handler fails, the middleware returns that very
error unchanged, the scope opened for the request has been exited before
control returns (the post-call store is the pre-call store), and the
identifier had already been attached to the environ the handler was given. -/
theorem C5_error_propagation {E A : Type} (m : RequestIdMiddleware)
    (app : Environ → Store → Nat → Except E A) (environ : Environ)
    (r u : Nat) (s : Store) (e : E)
    (h : app (middlewareEnviron m environ r) (middlewareStore m environ r u s)
      u = Except.error e) :
    (middlewareCall m app environ r u s).1 = Except.error e ∧
    (middlewareCall m app environ r u s).2 = s ∧
    lookupKV (middlewareEnviron m environ r) WSGI_KEY
      = some (installedId m environ r) := by
  refine ⟨?_, ?_, ?_⟩
  · simpa [middlewareCall] using h
  · simp [middlewareCall, middlewareStore, exitScope_enterScope]
  · simp [middlewareEnviron, lookupKV_setKV]

/-- Witness for C5: a handler that always fails with `"boom"`. -/
theorem C5_witness :
    (middlewareCall {} (fun _ _ _ => (Except.error "boom" : Except String Unit))
      [("HTTP_X_REQUEST_ID", "r-1")] 0 0 emptyStore).1
      = Except.error "boom" ∧
    (middlewareCall {} (fun _ _ _ => (Except.error "boom" : Except String Unit))
      [("HTTP_X_REQUEST_ID", "r-1")] 0 0 emptyStore).2 = emptyStore ∧
    lookupKV (middlewareEnviron {} [("HTTP_X_REQUEST_ID", "r-1")] 0) WSGI_KEY
      = some (installedId {} [("HTTP_X_REQUEST_ID", "r-1")] 0) :=
  C5_error_propagation {} (fun _ _ _ => Except.error "boom")
    [("HTTP_X_REQUEST_ID", "r-1")] 0 0 emptyStore "boom" rfl

/-- C6: ambient lookup is a total function into `Option` (it never raises);
while no scope is open on an execution unit it returns `none` ("absent"),
and after a middleware invocation returns, the store is exactly as before,
so lookup on a unit that had no open scope is again "absent" — no leakage
to subsequent executions reusing the unit. -/
theorem C6_absent_outside_scope {E A : Type} (m : RequestIdMiddleware)
    (app : Environ → Store → Nat → Except E A) (environ : Environ)
    (r u : Nat) (s : Store) (hs : s u = []) :
    requestIdGet s u = none ∧
    (middlewareCall m app environ r u s).2 = s ∧
    requestIdGet (middlewareCall m app environ r u s).2 u = none := by
  have habsent : requestIdGet s u = none := by
    simp [requestIdGet, ctxGet, hs]
  have hrestore : (middlewareCall m app environ r u s).2 = s := by
    simp [middlewareCall, middlewareStore, exitScope_enterScope]
  exact ⟨habsent, hrestore, by rw [hrestore]; exact habsent⟩

/-- Witness for C6: a fresh execution unit of the empty store, around a
request that carries no identifier header. -/
theorem C6_witness :
    requestIdGet emptyStore 0 = none ∧
    (middlewareCall {} (fun _ _ _ => (Except.ok () : Except Unit Unit)) [] 0 0
      emptyStore).2 = emptyStore ∧
    requestIdGet
      (middlewareCall {} (fun _ _ _ => (Except.ok () : Except Unit Unit)) [] 0
        0 emptyStore).2 0 = none :=
  C6_absent_outside_scope {} (fun _ _ _ => Except.ok ()) [] 0 0 emptyStore rfl

theorem applyOp_other (op : StoreOp) (u1 u2 : Nat) (s : Store) (h : u1 ≠ u2) :
    applyOp op u2 s u1 = s u1 := by
  cases op <;> simp [applyOp, enterScope, exitScope, h]

theorem applyOps_other (ops : List StoreOp) (u1 u2 : Nat) (s : Store)
    (h : u1 ≠ u2) : applyOps ops u2 s u1 = s u1 := by
  induction ops generalizing s with
  | nil => rfl
  | cons op rest ih =>
    show applyOps rest u2 (applyOp op u2 s) u1 = s u1
    rw [ih (applyOp op u2 s), applyOp_other op u1 u2 s h]

theorem ctxGet_congr (s1 s2 : Store) (u : Nat) (key : String)
    (h : s1 u = s2 u) : ctxGet s1 u key = ctxGet s2 u key := by
  simp [ctxGet, h]

/-- C7: per-execution-unit isolation — with requests carrying distinct
identifiers `a` and `b` handled on distinct execution units, the handler of
the `a`-request reads `a` (never `b`) by ambient lookup, no matter what
scope operations the concurrent request performs on its own unit, and vice
versa. -/
theorem C7_concurrent_isolation (mA mB : RequestIdMiddleware)
    (envA envB : Environ) (rA rB u1 u2 : Nat) (s s' : Store) (a b : String)
    (hu : u1 ≠ u2)
    (ha : lookupKV envA (wsgiName HEADER) = some a) (ha' : a ≠ "")
    (hb : lookupKV envB (wsgiName HEADER) = some b) (hb' : b ≠ "")
    (hab : a ≠ b) :
    ∀ ops : List StoreOp,
      requestIdGet (applyOps ops u2 (middlewareStore mA envA rA u1 s)) u1
        = some a ∧
      requestIdGet (applyOps ops u2 (middlewareStore mA envA rA u1 s)) u1
        ≠ some b ∧
      requestIdGet (applyOps ops u1 (middlewareStore mB envB rB u2 s')) u2
        = some b ∧
      requestIdGet (applyOps ops u1 (middlewareStore mB envB rB u2 s')) u2
        ≠ some a := by
  intro ops
  have hidA : installedId mA envA rA = a := by
    simp [installedId, resolveId_primary mA envA a ha ha']
  have hidB : installedId mB envB rB = b := by
    simp [installedId, resolveId_primary mB envB b hb hb']
  have hA : requestIdGet (applyOps ops u2 (middlewareStore mA envA rA u1 s)) u1
      = some a := by
    unfold requestIdGet
    rw [ctxGet_congr _ (middlewareStore mA envA rA u1 s) u1 "request_id"
      (applyOps_other ops u1 u2 _ hu)]
    simp [middlewareStore, ctxGet_enterScope, lookupKV, hidA]
  have hB : requestIdGet (applyOps ops u1 (middlewareStore mB envB rB u2 s')) u2
      = some b := by
    unfold requestIdGet
    rw [ctxGet_congr _ (middlewareStore mB envB rB u2 s') u2 "request_id"
      (applyOps_other ops u2 u1 _ (Ne.symm hu))]
    simp [middlewareStore, ctxGet_enterScope, lookupKV, hidB]
  refine ⟨hA, ?_, hB, ?_⟩
  · rw [hA]
    exact fun hcontra => hab (Option.some.inj hcontra)
  · rw [hB]
    exact fun hcontra => hab (Option.some.inj hcontra.symm)

/-- Witness for C7: identifiers `"A"` and `"B"` on units 0 and 1, with the
concurrent request's own scope open (one `enter` on the other unit). -/
theorem C7_witness :
    requestIdGet
      (applyOps [StoreOp.enter [("request_id", "B")]] 1
        (middlewareStore {} [("HTTP_X_REQUEST_ID", "A")] 0 0 emptyStore)) 0
      = some "A" ∧
    requestIdGet
      (applyOps [StoreOp.enter [("request_id", "B")]] 1
        (middlewareStore {} [("HTTP_X_REQUEST_ID", "A")] 0 0 emptyStore)) 0
      ≠ some "B" :=
  ⟨(C7_concurrent_isolation {} {} [("HTTP_X_REQUEST_ID", "A")]
      [("HTTP_X_REQUEST_ID", "B")] 0 0 0 1 emptyStore emptyStore "A" "B"
      (by decide) (by decide) (by decide) (by decide) (by decide) (by decide)
      [StoreOp.enter [("request_id", "B")]]).1,
   (C7_concurrent_isolation {} {} [("HTTP_X_REQUEST_ID", "A")]
      [("HTTP_X_REQUEST_ID", "B")] 0 0 0 1 emptyStore emptyStore "A" "B"
      (by decide) (by decide) (by decide) (by decide) (by decide) (by decide)
      [StoreOp.enter [("request_id", "B")]]).2.1⟩

/-- C8: a header that is present but carries the empty string is treated as
absent — the middleware installs a generated identifier, not the empty
string. -/
theorem C8_empty_header_generates (m : RequestIdMiddleware)
    (environ : Environ) (r : Nat)
    (h1 : lookupKV environ (wsgiName HEADER) = some "")
    (h2 : ∀ alt, m.altHeader = some alt →
      lookupKV environ (wsgiName alt) = some "") :
    installedId m environ r = generate r := by
  cases halt : m.altHeader with
  | none => simp [installedId, resolveId, readHeader, h1, halt]
  | some alt => simp [installedId, resolveId, readHeader, h1, halt,
      h2 alt halt]

/-- Witness for C8: both the primary and the configured alternate header are
present but empty. -/
theorem C8_witness :
    installedId ⟨some "X-Alternate"⟩
      [("HTTP_X_REQUEST_ID", ""), ("HTTP_X_ALTERNATE", "")] 0 = generate 0 :=
  C8_empty_header_generates ⟨some "X-Alternate"⟩
    [("HTTP_X_REQUEST_ID", ""), ("HTTP_X_ALTERNATE", "")] 0 (by decide)
    (fun alt halt => by injection halt with h; subst h; decide)

/-- C9: the decorator form invokes the wrapped callable on a store whose
ambient lookup returns exactly the supplied generator's value, and exits
the scope afterwards, restoring the caller's store — the same
Install/Invoke/Teardown lifecycle as the HTTP middleware. -/
theorem C9_decorator_scope (A : Type) (gen : Unit → String)
    (f : Store → Nat → A) (u : Nat) (s : Store) :
    requestIdGet (enterScope s u [("request_id", gen ())]) u = some (gen ()) ∧
    (decorator gen f u s).1 = f (enterScope s u [("request_id", gen ())]) u ∧
    (decorator gen f u s).2 = s := by
  refine ⟨?_, rfl, ?_⟩
  · simp [requestIdGet, ctxGet_enterScope, lookupKV]
  · simp [decorator, exitScope_enterScope]

/-! ### The generated identifier: UUID-v4 canonical text form. -/

theorem hexDigits_length (w n : Nat) : (hexDigits w n).length = w := by
  induction w generalizing n with
  | zero => rfl
  | succ w ih => simp [hexDigits, ih]

theorem hexVal_append (ds : List (Fin 16)) (d : Fin 16) :
    hexVal (ds ++ [d]) = hexVal ds * 16 + d.val := by
  simp [hexVal, List.foldl_append]

theorem hexVal_hexDigits (w n : Nat) : hexVal (hexDigits w n) = n % 16 ^ w := by
  induction w generalizing n with
  | zero => simp [hexDigits, hexVal, Nat.mod_one]
  | succ w ih =>
    rw [show hexDigits (w + 1) n
        = hexDigits w (n / 16) ++ [⟨n % 16, by omega⟩] from rfl,
      hexVal_append, ih, pow_succ, mul_comm (16 ^ w) 16, Nat.mod_mul]
    ring

theorem hexChar_injective : Function.Injective hexChar := by
  decide

theorem hexChar_ne_dash : ∀ d : Fin 16, hexChar d ≠ '-' := by
  decide

theorem filter_map_hexChar (l : List (Fin 16)) :
    (l.map hexChar).filter (fun c => c != '-') = l.map hexChar := by
  apply List.filter_eq_self.mpr
  intro a ha
  obtain ⟨d, _, rfl⟩ := List.mem_map.mp ha
  simpa using hexChar_ne_dash d

theorem stripDashes_uuidText (ns : List (Fin 16)) :
    stripDashes (uuidText ns).data = ns.map hexChar := by
  set cs := ns.map hexChar with hcs
  have htake : ∀ n : Nat,
      (cs.take n).filter (fun c => c != '-') = cs.take n := by
    intro n
    rw [hcs, ← List.map_take]; exact filter_map_hexChar _
  have hdt : ∀ n1 n2 : Nat,
      ((cs.drop n1).take n2).filter (fun c => c != '-')
        = (cs.drop n1).take n2 := by
    intro n1 n2
    rw [hcs, ← List.map_drop, ← List.map_take]; exact filter_map_hexChar _
  have hdrop : ∀ n : Nat,
      (cs.drop n).filter (fun c => c != '-') = cs.drop n := by
    intro n
    rw [hcs, ← List.map_drop]; exact filter_map_hexChar _
  have hdata : (uuidText ns).data
      = cs.take 8 ++ '-' :: ((cs.drop 8).take 4 ++ '-' ::
        ((cs.drop 12).take 4 ++ '-' :: ((cs.drop 16).take 4 ++ '-' ::
          cs.drop 20))) := rfl
  rw [hdata]
  unfold stripDashes
  simp only [List.filter_append, List.filter_cons]
  simp only [show (('-' != '-') = true) = False by simp, if_false]
  rw [htake 8, hdt 8 4, hdt 12 4, hdt 16 4, hdrop 20]
  have h20 : (cs.drop 16).take 4 ++ cs.drop 20 = cs.drop 16 := by
    have h := List.take_append_drop 4 (cs.drop 16)
    rw [List.drop_drop] at h
    norm_num at h
    exact h
  have h16 : (cs.drop 12).take 4 ++ cs.drop 16 = cs.drop 12 := by
    have h := List.take_append_drop 4 (cs.drop 12)
    rw [List.drop_drop] at h
    norm_num at h
    exact h
  have h12 : (cs.drop 8).take 4 ++ cs.drop 12 = cs.drop 8 := by
    have h := List.take_append_drop 4 (cs.drop 8)
    rw [List.drop_drop] at h
    norm_num at h
    exact h
  rw [h20, h16, h12, List.take_append_drop]

theorem uuidNibbles_length (r : Nat) : (uuidNibbles r).length = 32 := by
  unfold uuidNibbles
  simp [hexDigits_length]

theorem uuidSplit_inj (ds1 ds2 : List (Fin 16)) (v1 v2 : Fin 16)
    (hl1 : ds1.length = 30) (hl2 : ds2.length = 30)
    (h : ds1.take 12 ++ [(4 : Fin 16)] ++ (ds1.drop 12).take 3 ++ [v1]
        ++ ds1.drop 15
      = ds2.take 12 ++ [(4 : Fin 16)] ++ (ds2.drop 12).take 3 ++ [v2]
        ++ ds2.drop 15) :
    ds1 = ds2 ∧ v1 = v2 := by
  simp only [List.append_assoc, List.singleton_append, List.cons_append,
    List.nil_append] at h
  have hlenA : (ds1.take 12).length = (ds2.take 12).length := by
    simp [hl1, hl2]
  obtain ⟨hA, h2⟩ := List.append_inj h hlenA
  rw [List.cons.injEq] at h2
  obtain ⟨-, h3⟩ := h2
  have hlenB : ((ds1.drop 12).take 3).length
      = ((ds2.drop 12).take 3).length := by
    simp [hl1, hl2]
  obtain ⟨hB, h4⟩ := List.append_inj h3 hlenB
  rw [List.cons.injEq] at h4
  obtain ⟨hv, hC⟩ := h4
  refine ⟨?_, hv⟩
  have e1 : ds1 = ds1.take 12 ++ ((ds1.drop 12).take 3 ++ ds1.drop 15) := by
    rw [show ds1.drop 15 = (ds1.drop 12).drop 3 by rw [List.drop_drop],
      List.take_append_drop, List.take_append_drop]
  have e2 : ds2 = ds2.take 12 ++ ((ds2.drop 12).take 3 ++ ds2.drop 15) := by
    rw [show ds2.drop 15 = (ds2.drop 12).drop 3 by rw [List.drop_drop],
      List.take_append_drop, List.take_append_drop]
  rw [e1, e2, hA, hB, hC]

theorem uuidNibbles_inj (r1 r2 : Nat) (h1 : r1 < 2 ^ 122) (h2 : r2 < 2 ^ 122)
    (h : uuidNibbles r1 = uuidNibbles r2) : r1 = r2 := by
  obtain ⟨hds, hv⟩ := uuidSplit_inj (hexDigits 30 (r1 % 2 ^ 120))
    (hexDigits 30 (r2 % 2 ^ 120)) ⟨8 + r1 / 2 ^ 120 % 4, by omega⟩
    ⟨8 + r2 / 2 ^ 120 % 4, by omega⟩ (hexDigits_length 30 _)
    (hexDigits_length 30 _) h
  rw [Fin.mk.injEq] at hv
  have hval := congrArg hexVal hds
  rw [hexVal_hexDigits, hexVal_hexDigits] at hval
  norm_num at hval hv h1 h2
  omega

theorem generate_inj (r1 r2 : Nat) (h1 : r1 < 2 ^ 122) (h2 : r2 < 2 ^ 122)
    (h : generate r1 = generate r2) : r1 = r2 := by
  apply uuidNibbles_inj r1 r2 h1 h2
  apply List.map_injective_iff.mpr hexChar_injective
  have h2 := congrArg (fun s : String => stripDashes s.data) h
  simpa [generate, stripDashes_uuidText] using h2

theorem generate_ne_empty (r : Nat) : generate r ≠ "" := by
  intro hcontra
  have h : stripDashes (generate r).data = [] := by rw [hcontra]; rfl
  rw [show generate r = uuidText (uuidNibbles r) from rfl,
    stripDashes_uuidText] at h
  have hmap := congrArg List.length h
  simp [uuidNibbles_length] at hmap

theorem generate_data_length (r : Nat) : (generate r).data.length = 36 := by
  have h32 : ((uuidNibbles r).map hexChar).length = 32 := by
    simp [uuidNibbles_length]
  show (((uuidNibbles r).map hexChar).take 8 ++ '-' :: _).length = 36
  simp [List.length_append, List.length_take, List.length_drop, h32]

theorem C3_generated_id (m : RequestIdMiddleware) (environ : Environ) (r : Nat)
    (h1 : lookupKV environ (wsgiName HEADER) = none)
    (h2 : ∀ alt, m.altHeader = some alt →
      lookupKV environ (wsgiName alt) = none) :
    installedId m environ r = generate r ∧
    generate r ≠ "" ∧
    (generate r).data.length = 36 ∧
    ∀ r1 r2 : Nat, r1 < 2 ^ 122 → r2 < 2 ^ 122 → r1 ≠ r2 →
      generate r1 ≠ generate r2 := by
  refine ⟨?_, generate_ne_empty r, generate_data_length r, ?_⟩
  · simp [installedId, resolveId_none m environ h1 h2]
  · intro r1 r2 hr1 hr2 hne hcontra
    exact hne (generate_inj r1 r2 hr1 hr2 hcontra)

theorem C3_witness :
    installedId {} [] 0 = generate 0 ∧ generate 0 ≠ "" ∧
    (generate 0).data.length = 36 ∧ generate 0 ≠ generate 1 := by
  have h := C3_generated_id {} [] 0 rfl
    (fun alt halt => Option.noConfusion halt)
  exact ⟨h.1, h.2.1, h.2.2.1, h.2.2.2 0 1 (by norm_num) (by norm_num)
    (by norm_num)⟩

end Talisker

namespace Endpoints

/-- C10 counterexample: the claim's "leaving both unmodified" clause fails.
`__call__` constructs `Request(environ)` first, and werkzeug's constructor
stores the request under `environ['werkzeug.request']` before the wrapped
app runs, so an app that returns the environ it received does not return
the original environ — the result differs from calling the app on the
unmodified environ. -/
theorem C10_counterexample :
    call
      ⟨fun e _ => e, defaultNamespace, false, fun _ _ _ => [], fun _ _ => [],
        fun _ _ => [], fun _ _ _ => []⟩
      [("PATH_INFO", "/foo")] () ≠ [("PATH_INFO", "/foo")] := by
  decide

/-- C10 (amended): for a request whose werkzeug-normalized path
(`'/' + PATH_INFO.lstrip('/')`) does not start with the status root
(`'/' + namespace`), `__call__` is a pure pass-through up to the `Request`
construction: it returns exactly the wrapped application applied to the
environ as mutated by `Request(environ)` and the unchanged
`start_response`, and that mutation touches no key other than
`werkzeug.request`. -/
theorem C10_pass_through {σ ρ : Type} (m : StandardEndpointMiddleware σ ρ)
    (environ : Talisker.Environ) (sr : σ)
    (h : strStartsWith (requestPath (requestEnviron environ)) (statusRoot m)
      = false) :
    call m environ sr = m.app (requestEnviron environ) sr ∧
    ∀ key, key ≠ "werkzeug.request" →
      Talisker.lookupKV (requestEnviron environ) key
        = Talisker.lookupKV environ key := by
  constructor
  · simp [call, h]
  · intro key hkey
    exact Talisker.lookupKV_setKV_ne environ "werkzeug.request" key
      "<Request>" hkey

/-- Witness for C10: path `/foo` under the default `_status` namespace; the
app receives the environ with `werkzeug.request` added and `PATH_INFO`
untouched. -/
theorem C10_witness :
    call
      ⟨fun _ _ => "app", defaultNamespace, false, fun _ _ _ => "redirect",
        fun _ _ => "404", fun _ _ => "typeerror", fun _ _ _ => "dispatch"⟩
      [("PATH_INFO", "/foo")] () = "app" ∧
    Talisker.lookupKV (requestEnviron [("PATH_INFO", "/foo")]) "PATH_INFO"
      = Talisker.lookupKV [("PATH_INFO", "/foo")] "PATH_INFO" :=
  ⟨(C10_pass_through
      ⟨fun _ _ => "app", defaultNamespace, false, fun _ _ _ => "redirect",
        fun _ _ => "404", fun _ _ => "typeerror", fun _ _ _ => "dispatch"⟩
      [("PATH_INFO", "/foo")] () (by decide)).1,
   (C10_pass_through
      ⟨fun _ _ => "app", defaultNamespace, false, fun _ _ _ => "redirect",
        fun _ _ => "404", fun _ _ => "typeerror", fun _ _ _ => "dispatch"⟩
      [("PATH_INFO", "/foo")] () (by decide)).2 "PATH_INFO" (by decide)⟩

end Endpoints
